import Mathlib

/-
Verification of the revenue-leakage detection core
(hf_deploy/ml_predictive/revenue_leakage) against its specification.

Modelling conventions:
  * Python floats are modelled as rationals (ℚ); integer quantities as ℤ/ℕ.
  * MongoDB documents are modelled as Lean structures.  A field that the
    code reads with dict.get(key, default) is modelled as a plain field
    when the default only matters for absent keys (an absent key is then
    represented by the default value), and as an Option when the
    presence/absence distinction is behaviourally relevant.
  * Database effects (inserts, fetches) are abstracted into explicit
    state passing or function parameters; the pure computations are
    transcribed directly from the source.
-/

namespace RevenueLeakage

/-- Config.ALERT_THRESHOLDS from config.py (numeric thresholds used by the
alert generator and the pattern analyzer).  Values are environment
configurable; defaultConfig holds the defaults from config.py. -/
structure Config where
  anomaly_score_threshold : ℚ
  min_leakage_amount : ℚ
  high_priority_amount : ℚ
  critical_priority_amount : ℚ
  billing_delay_hours : ℤ
  price_variance_percent : ℚ
  deriving Repr, DecidableEq

/-- Default values of Config.ALERT_THRESHOLDS in config.py. -/
def defaultConfig : Config :=
  { anomaly_score_threshold := -1/2
    min_leakage_amount := 100
    high_priority_amount := 5000
    critical_priority_amount := 10000
    billing_delay_hours := 24
    price_variance_percent := 10 }

/-- Config.PRIORITY_LEVELS from config.py. -/
def PRIORITY_LOW : ℕ := 1

/-- Config.PRIORITY_LEVELS MEDIUM. -/
def PRIORITY_MEDIUM : ℕ := 2

/-- Config.PRIORITY_LEVELS HIGH. -/
def PRIORITY_HIGH : ℕ := 3

/-- Config.PRIORITY_LEVELS CRITICAL. -/
def PRIORITY_CRITICAL : ℕ := 4

/-- The unified issue shape produced by the ML path and the rule engine
(section 3 of the spec): dictionaries built by pattern_analyzer.py and by
the anomaly-to-issue conversion, consumed by alert_generator.py.
Fields that only some detectors attach are Options defaulting to none;
fields present in every issue are plain. -/
structure Issue where
  type : String
  visit_id : String
  patient_id : String := ""
  bill_id : Option String := none
  description : String := ""
  service : String := ""
  expected_revenue : ℚ := 0
  actual_revenue : ℚ := 0
  leakage_amount : ℚ := 0
  severity : String := "medium"
  source : String := ""
  anomaly_score : ℚ := 0
  item_code : Option String := none
  charged_rate : Option ℚ := none
  tariff_rate : Option ℚ := none
  variance_percent : Option ℚ := none
  item_reference : Option String := none
  duplicate_amount : Option ℚ := none
  test_id : Option String := none
  prescription_id : Option String := none
  deriving Repr, DecidableEq

/-- AlertGenerator._calculate_priority from alert_generator.py:
amount thresholds first (critical, then high), then severity. -/
def calculate_priority (cfg : Config) (anomaly : Issue) : ℕ :=
  let leakage := anomaly.leakage_amount
  let severity := anomaly.severity
  if leakage ≥ cfg.critical_priority_amount then PRIORITY_CRITICAL
  else if leakage ≥ cfg.high_priority_amount then PRIORITY_HIGH
  else if severity = "high" then PRIORITY_HIGH
  else if severity = "medium" then PRIORITY_MEDIUM
  else PRIORITY_LOW

/-- C2: _calculate_priority returns CRITICAL (4) whenever leakage_amount is
at least critical_priority_amount (equality included, severity ignored);
otherwise HIGH (3) whenever leakage_amount is at least high_priority_amount
or severity is 'high'; otherwise MEDIUM (2) when severity is 'medium';
otherwise LOW (1).  Amount thresholds dominate severity. -/
theorem c2_calculate_priority_spec (cfg : Config) (a : Issue) :
    (a.leakage_amount ≥ cfg.critical_priority_amount →
      calculate_priority cfg a = 4) ∧
    (¬ a.leakage_amount ≥ cfg.critical_priority_amount →
      (a.leakage_amount ≥ cfg.high_priority_amount ∨ a.severity = "high") →
      calculate_priority cfg a = 3) ∧
    (¬ a.leakage_amount ≥ cfg.critical_priority_amount →
      ¬ (a.leakage_amount ≥ cfg.high_priority_amount ∨ a.severity = "high") →
      a.severity = "medium" → calculate_priority cfg a = 2) ∧
    (¬ a.leakage_amount ≥ cfg.critical_priority_amount →
      ¬ (a.leakage_amount ≥ cfg.high_priority_amount ∨ a.severity = "high") →
      a.severity ≠ "medium" → calculate_priority cfg a = 1) := by
  unfold calculate_priority PRIORITY_CRITICAL PRIORITY_HIGH PRIORITY_MEDIUM PRIORITY_LOW
  refine ⟨fun h => ?_, fun hc hh => ?_, fun hc hh hm => ?_, fun hc hh hm => ?_⟩
  · simp [h]
  · rcases hh with h | h <;> simp [hc, h]
  · push_neg at hh
    simp [hc, hh.1, hh.2, hm]
  · push_neg at hh
    simp [hc, hh.1, hh.2, hm]

/-- C2 witness: a concrete issue at exactly the critical threshold, with
severity 'low', still maps to priority 4. -/
theorem c2_witness :
    ((10000 : ℚ) ≥ defaultConfig.critical_priority_amount) ∧
    calculate_priority defaultConfig
      { type := "price-mismatch", visit_id := "v1",
        leakage_amount := 10000, severity := "low" } = 4 := by
  refine ⟨by norm_num [defaultConfig], ?_⟩
  exact (c2_calculate_priority_spec defaultConfig
    { type := "price-mismatch", visit_id := "v1",
      leakage_amount := 10000, severity := "low" }).1
    (by norm_num [defaultConfig])

/-- A line item of a billing document (billings.items[] in Mongo).
Field defaults mirror the dict.get defaults used throughout
data_processor.py and pattern_analyzer.py; itemCode/serviceCode are
Options because the code distinguishes an absent key from an empty
string there. -/
structure BillingItem where
  itemCode : Option String := none
  serviceCode : Option String := none
  itemType : Option String := none
  itemReference : Option String := none
  rate : ℚ := 0
  quantity : ℤ := 1
  amount : ℚ := 0
  isBilled : Bool := true
  deriving Repr, DecidableEq

/-- A billing document as read by DataProcessor.prepare_visit_data and
PatternAnalyzer.  Dates are epoch seconds (Option: the key may be
absent). -/
structure BillingDoc where
  mongo_id : String
  visit : Option String := none
  patient : Option String := none
  visitType : String := "unknown"
  grandTotal : ℚ := 0
  paidAmount : ℚ := 0
  totalDiscount : ℚ := 0
  billDate : Option ℤ := none
  createdAt : Option ℤ := none
  items : List BillingItem := []
  deriving Repr, DecidableEq

/-- One row of the visit-level feature frame produced by
DataProcessor.prepare_visit_data. -/
structure VisitRecord where
  visit_id : String
  patient_id : String
  bill_id : String
  visit_type : String
  bill_date : Option ℤ
  total_services : ℕ
  total_billed_amount : ℚ
  total_expected_amount : ℚ
  billing_delay_hours : ℚ
  unbilled_items_count : ℕ
  price_variance_ratio : ℚ
  payment_completion_ratio : ℚ
  discount_ratio : ℚ
  visit_duration_hours : ℚ
  items_per_visit : ℕ
  deriving Repr, DecidableEq

/-- Sum of rate * quantity over the items of a billing (the
total_expected computation inside prepare_visit_data). -/
def expectedAmount (items : List BillingItem) : ℚ :=
  (items.map (fun item => item.rate * (item.quantity : ℚ))).sum

/-- The billing-delay computation inside prepare_visit_data:
(billDate - createdAt) in hours, 0 when either date is absent
(created_date falls back to bill_date when the createdAt key is absent). -/
def billingDelayHours (b : BillingDoc) : ℚ :=
  let bill_date := b.billDate
  let created_date := match b.createdAt with
    | some t => some t
    | none => b.billDate
  match bill_date, created_date with
  | some bd, some cd => ((bd - cd : ℤ) : ℚ) / 3600
  | _, _ => 0

/-- The body of the per-billing loop of DataProcessor.prepare_visit_data:
one VisitRecord per billing record. -/
def prepareOne (b : BillingDoc) : VisitRecord :=
  let visit_id := match b.visit with
    | some v => v
    | none => b.mongo_id
  let items := b.items
  let total_services := items.length
  let total_billed := b.grandTotal
  let total_expected := expectedAmount items
  let unbilled_count := (items.filter (fun item => ! item.isBilled)).length
  let price_variance := if total_expected > 0 then
      |total_billed - total_expected| / total_expected else 0
  let paid := b.paidAmount
  let payment_ratio_val := if total_billed > 0 then paid / total_billed else 0
  let discount := b.totalDiscount
  let discount_ratio_val := if total_billed > 0 then discount / total_billed else 0
  { visit_id := visit_id
    patient_id := b.patient.getD ""
    bill_id := b.mongo_id
    visit_type := b.visitType
    bill_date := b.billDate
    total_services := total_services
    total_billed_amount := total_billed
    total_expected_amount := total_expected
    billing_delay_hours := billingDelayHours b
    unbilled_items_count := unbilled_count
    price_variance_ratio := price_variance
    payment_completion_ratio := payment_ratio_val
    discount_ratio := discount_ratio_val
    visit_duration_hours := 0
    items_per_visit := total_services }

/-- DataProcessor.prepare_visit_data: the empty input returns the empty
frame, otherwise one VisitRecord per billing record, in order. -/
def prepare_visit_data (billings : List BillingDoc) : List VisitRecord :=
  billings.map prepareOne

/-- A billing whose single item has a negative rate, so the expected
amount is negative. -/
def c9Billing : BillingDoc :=
  { mongo_id := "B1", items := [ { rate := -5, quantity := 1 } ] }

/-- C9 counterexample: the claim states price_variance_ratio equals
abs(billed - expected) / expected with 0 only in the expected = 0 case.
For a billing with expected = -5 and billed = 0 the code emits 0
(its guard is expected strictly positive), while the claimed formula
gives -1; so the claim as stated is false. -/
theorem c9_counterexample :
    expectedAmount c9Billing.items = -5 ∧
    VisitRecord.price_variance_ratio (prepareOne c9Billing) = 0 ∧
    |(0 : ℚ) - (-5)| / (-5 : ℚ) = -1 ∧ (0 : ℚ) ≠ -1 := by
  refine ⟨?_, ?_, by norm_num, by norm_num⟩
  · simp [c9Billing, expectedAmount]
  · simp [c9Billing, prepareOne, expectedAmount]

/-- C9 as amended: for every billing record in the input, the emitted
VisitFeatureRecord satisfies price_variance_ratio =
abs(billed - expected) / expected when expected is strictly positive and
0 otherwise; payment_completion_ratio = paid / billed when billed is
strictly positive and 0 otherwise; discount_ratio = discount / billed
when billed is strictly positive and 0 otherwise. -/
theorem c9_visit_ratios (billings : List BillingDoc) (b : BillingDoc)
    (hb : b ∈ billings) :
    ∃ v ∈ prepare_visit_data billings, v = prepareOne b ∧
      (expectedAmount b.items > 0 →
        VisitRecord.price_variance_ratio v =
          |b.grandTotal - expectedAmount b.items| / expectedAmount b.items) ∧
      (¬ expectedAmount b.items > 0 → VisitRecord.price_variance_ratio v = 0) ∧
      (b.grandTotal > 0 →
        VisitRecord.payment_completion_ratio v = b.paidAmount / b.grandTotal) ∧
      (¬ b.grandTotal > 0 → VisitRecord.payment_completion_ratio v = 0) ∧
      (b.grandTotal > 0 →
        VisitRecord.discount_ratio v = b.totalDiscount / b.grandTotal) ∧
      (¬ b.grandTotal > 0 → VisitRecord.discount_ratio v = 0) := by
  refine ⟨prepareOne b, List.mem_map_of_mem prepareOne hb, rfl, ?_, ?_, ?_, ?_, ?_, ?_⟩ <;>
    intro h <;> simp [prepareOne, h]

/-- Concrete billing with positive expected amount and grand total. -/
def c9WBilling : BillingDoc :=
  { mongo_id := "B2", patient := some "p", grandTotal := 200,
    paidAmount := 150, totalDiscount := 10,
    items := [ { rate := 80, quantity := 2 } ] }

/-- C9 witness: instantiating the amended theorem at a concrete billing
with positive expected amount and positive grand total. -/
theorem c9_witness :
    c9WBilling ∈ [c9WBilling] ∧
    ∃ v ∈ prepare_visit_data [c9WBilling],
      v = prepareOne c9WBilling ∧
      (expectedAmount [ { rate := (80 : ℚ), quantity := 2 } ] > 0 →
        VisitRecord.price_variance_ratio v =
          |(200 : ℚ) - expectedAmount [ { rate := (80 : ℚ), quantity := 2 } ]| /
            expectedAmount [ { rate := (80 : ℚ), quantity := 2 } ]) ∧
      (¬ expectedAmount [ { rate := (80 : ℚ), quantity := 2 } ] > 0 →
        VisitRecord.price_variance_ratio v = 0) ∧
      ((200 : ℚ) > 0 →
        VisitRecord.payment_completion_ratio v = (150 : ℚ) / 200) ∧
      (¬ (200 : ℚ) > 0 → VisitRecord.payment_completion_ratio v = 0) ∧
      ((200 : ℚ) > 0 → VisitRecord.discount_ratio v = (10 : ℚ) / 200) ∧
      (¬ (200 : ℚ) > 0 → VisitRecord.discount_ratio v = 0) :=
  ⟨List.mem_singleton.mpr rfl,
    c9_visit_ratios _ _ (List.mem_singleton.mpr rfl)⟩

/-- The deduplication key built inside AlertGenerator.combine_anomalies:
the f-string "visit_id:type".  (With the required type field of the
Issue shape, the differing .get defaults of the two passes never
apply.) -/
def issueKey (a : Issue) : String := a.visit_id ++ ":" ++ a.type

/-- One pass of the combine_anomalies loop: walk the list, skip issues
whose key was already seen, otherwise stamp the source field and record
the key.  Returns (kept issues, final seen set). -/
def dedupPass (src : String) : List Issue → List String → List Issue × List String
  | [], seen => ([], seen)
  | a :: rest, seen =>
    if issueKey a ∈ seen then dedupPass src rest seen
    else
      let p := dedupPass src rest (issueKey a :: seen)
      ({ a with source := src } :: p.1, p.2)

/-- The Python sort key of combine_anomalies:
(-priority, -leakage_amount), compared lexicographically ascending. -/
def sortKey (cfg : Config) (a : Issue) : ℚ × ℚ :=
  (-(calculate_priority cfg a : ℚ), -a.leakage_amount)

/-- Lexicographic comparison of Python 2-tuples. -/
def tupleLe (p q : ℚ × ℚ) : Bool :=
  if p.1 < q.1 then true
  else if p.1 = q.1 then decide (p.2 ≤ q.2)
  else false

/-- Stable insertion of an issue into an already sorted list (models one
step of Python's stable ascending sort by sortKey). -/
def insertIssue (cfg : Config) (a : Issue) : List Issue → List Issue
  | [] => [a]
  | b :: bs =>
    if tupleLe (sortKey cfg a) (sortKey cfg b) then a :: b :: bs
    else b :: insertIssue cfg a bs

/-- Stable sort by sortKey (models list.sort with the combine_anomalies
key function). -/
def sortIssues (cfg : Config) : List Issue → List Issue
  | [] => []
  | a :: rest => insertIssue cfg a (sortIssues cfg rest)

/-- AlertGenerator.combine_anomalies: ML pass first (source stamped
'ml'), then the rule pass over the same seen set (source stamped
'rules'), then the stable sort by (-priority, -leakage). -/
def combine_anomalies (cfg : Config) (ml_anomalies rule_anomalies : List Issue) :
    List Issue :=
  let p1 := dedupPass "ml" ml_anomalies []
  let p2 := dedupPass "rules" rule_anomalies p1.2
  sortIssues cfg (p1.1 ++ p2.1)

theorem issueKey_set_source (a : Issue) (s : String) :
    issueKey { a with source := s } = issueKey a := rfl

theorem dedupPass_snd_mem (src : String) (l : List Issue) (seen : List String)
    (k : String) :
    k ∈ (dedupPass src l seen).2 ↔ k ∈ seen ∨ k ∈ l.map issueKey := by
  induction l generalizing seen with
  | nil => simp [dedupPass]
  | cons a rest ih =>
    by_cases h : issueKey a ∈ seen
    · simp only [dedupPass, if_pos h, ih, List.map_cons, List.mem_cons]
      constructor
      · rintro (hk | hk)
        · exact Or.inl hk
        · exact Or.inr (Or.inr hk)
      · rintro (hk | hk | hk)
        · exact Or.inl hk
        · exact Or.inl (hk ▸ h)
        · exact Or.inr hk
    · simp only [dedupPass, if_neg h, ih, List.map_cons, List.mem_cons]
      tauto

theorem dedupPass_fst_mem (src : String) (l : List Issue) (seen : List String)
    (c : Issue) (hc : c ∈ (dedupPass src l seen).1) :
    ∃ a ∈ l, c = { a with source := src } := by
  induction l generalizing seen with
  | nil => simp [dedupPass] at hc
  | cons a rest ih =>
    by_cases h : issueKey a ∈ seen
    · rw [dedupPass, if_pos h] at hc
      obtain ⟨b, hb, hcb⟩ := ih seen hc
      exact ⟨b, List.mem_cons_of_mem a hb, hcb⟩
    · rw [dedupPass, if_neg h] at hc
      rcases List.mem_cons.mp hc with hc | hc
      · exact ⟨a, List.mem_cons_self a rest, hc⟩
      · obtain ⟨b, hb, hcb⟩ := ih (issueKey a :: seen) hc
        exact ⟨b, List.mem_cons_of_mem a hb, hcb⟩

theorem dedupPass_fst_key_fresh (src : String) (l : List Issue)
    (seen : List String) (c : Issue) (hc : c ∈ (dedupPass src l seen).1) :
    issueKey c ∉ seen := by
  induction l generalizing seen with
  | nil => simp [dedupPass] at hc
  | cons a rest ih =>
    by_cases h : issueKey a ∈ seen
    · rw [dedupPass, if_pos h] at hc
      exact ih seen hc
    · rw [dedupPass, if_neg h] at hc
      rcases List.mem_cons.mp hc with hc | hc
      · rw [hc, issueKey_set_source]
        exact h
      · intro hmem
        exact (ih (issueKey a :: seen) hc) (List.mem_cons_of_mem _ hmem)

theorem dedupPass_fst_nodup (src : String) (l : List Issue)
    (seen : List String) :
    ((dedupPass src l seen).1.map issueKey).Nodup := by
  induction l generalizing seen with
  | nil => simp [dedupPass]
  | cons a rest ih =>
    by_cases h : issueKey a ∈ seen
    · rw [dedupPass, if_pos h]
      exact ih seen
    · rw [dedupPass, if_neg h]
      refine List.nodup_cons.mpr ⟨?_, ih (issueKey a :: seen)⟩
      intro hmem
      rw [issueKey_set_source] at hmem
      obtain ⟨c, hc, hkey⟩ := List.mem_map.mp hmem
      have := dedupPass_fst_key_fresh src rest (issueKey a :: seen) c hc
      exact this (hkey ▸ List.mem_cons_self _ _)

theorem dedupPass_retains (src : String) (l : List Issue) (seen : List String)
    (a : Issue) (ha : a ∈ l) (hk : issueKey a ∉ seen) :
    ∃ c ∈ (dedupPass src l seen).1,
      issueKey c = issueKey a ∧ c.source = src := by
  induction l generalizing seen with
  | nil => simp at ha
  | cons b rest ih =>
    by_cases h : issueKey b ∈ seen
    · rw [dedupPass, if_pos h]
      rcases List.mem_cons.mp ha with rfl | ha
      · exact absurd h hk
      · exact ih seen ha hk
    · rw [dedupPass, if_neg h]
      by_cases hab : issueKey a = issueKey b
      · exact ⟨{ b with source := src },
          List.mem_cons_self _ _, by rw [issueKey_set_source, hab], rfl⟩
      · rcases List.mem_cons.mp ha with rfl | ha
        · exact absurd rfl hab
        · have hk' : issueKey a ∉ issueKey b :: seen := by
            intro hmem
            rcases List.mem_cons.mp hmem with hmem | hmem
            · exact hab hmem
            · exact hk hmem
          obtain ⟨c, hc, hck, hcs⟩ := ih (issueKey b :: seen) ha hk'
          exact ⟨c, List.mem_cons_of_mem _ hc, hck, hcs⟩

theorem insertIssue_perm (cfg : Config) (a : Issue) (l : List Issue) :
    List.Perm (insertIssue cfg a l) (a :: l) := by
  induction l with
  | nil => rfl
  | cons b bs ih =>
    rw [insertIssue]
    split
    · rfl
    · exact (ih.cons b).trans (List.Perm.swap a b bs)

theorem sortIssues_perm (cfg : Config) (l : List Issue) :
    List.Perm (sortIssues cfg l) l := by
  induction l with
  | nil => rfl
  | cons a rest ih =>
    rw [sortIssues]
    exact (insertIssue_perm cfg a (sortIssues cfg rest)).trans (ih.cons a)

theorem chars_colon_append_inj :
    ∀ (s₁ s₂ t₁ t₂ : List Char), ':' ∉ s₁ → ':' ∉ s₂ →
      s₁ ++ ':' :: t₁ = s₂ ++ ':' :: t₂ → s₁ = s₂ ∧ t₁ = t₂ := by
  intro s₁
  induction s₁ with
  | nil =>
    intro s₂ t₁ t₂ _ h₂ heq
    cases s₂ with
    | nil => exact ⟨rfl, by simpa using heq⟩
    | cons c s₂ =>
      simp only [List.nil_append, List.cons_append, List.cons.injEq] at heq
      exact absurd (heq.1 ▸ List.mem_cons_self c s₂) (heq.1 ▸ h₂)
  | cons c s₁ ih =>
    intro s₂ t₁ t₂ h₁ h₂ heq
    cases s₂ with
    | nil =>
      simp only [List.cons_append, List.nil_append, List.cons.injEq] at heq
      exact absurd (heq.1 ▸ List.mem_cons_self c s₁) (fun hmem => h₁ hmem)
    | cons d s₂ =>
      simp only [List.cons_append, List.cons.injEq] at heq
      obtain ⟨hs, ht⟩ := ih s₂ t₁ t₂
        (fun hmem => h₁ (List.mem_cons_of_mem c hmem))
        (fun hmem => h₂ (List.mem_cons_of_mem d hmem)) heq.2
      exact ⟨by rw [heq.1, hs], ht⟩

theorem issueKey_inj (a b : Issue)
    (ha : ':' ∉ a.visit_id.data) (hb : ':' ∉ b.visit_id.data)
    (h : issueKey a = issueKey b) :
    a.visit_id = b.visit_id ∧ a.type = b.type := by
  have hdata : a.visit_id.data ++ ':' :: a.type.data =
      b.visit_id.data ++ ':' :: b.type.data := by
    have := congrArg String.data h
    simpa [issueKey, String.data_append] using this
  obtain ⟨hv, ht⟩ := chars_colon_append_inj _ _ _ _ ha hb hdata
  exact ⟨String.ext hv, String.ext ht⟩

/-- ML issue whose visit_id contains the key separator ':'. -/
def c1MlA : Issue := { type := "c", visit_id := "a:b" }

/-- ML issue with visit_id "a" and type "b:c"; its string key collides
with the key of c1MlA. -/
def c1MlB : Issue := { type := "b:c", visit_id := "a" }

/-- Rule issue with the same (visit_id, type) pair as c1MlB. -/
def c1Rule : Issue := { type := "b:c", visit_id := "a", source := "rules" }

/-- C1 counterexample: the dedup key is the string visit_id ++ ":" ++ type,
so the pair ("a:b", "c") and the pair ("a", "b:c") collide.  Both input
lists contain an issue with the (visit_id, type) key ("a", "b:c"), yet no
issue with that key appears in the output at all (the ML one was dropped
by the string collision with c1MlA, and the rule one by the same seen
key); hence the claim that the ML-sourced issue with that key is retained
is false. -/
theorem c1_counterexample :
    c1MlB ∈ [c1MlA, c1MlB] ∧ c1Rule ∈ [c1Rule] ∧
    c1MlB.visit_id = c1Rule.visit_id ∧ c1MlB.type = c1Rule.type ∧
    ∀ c ∈ combine_anomalies defaultConfig [c1MlA, c1MlB] [c1Rule],
      ¬ (c.visit_id = "a" ∧ c.type = "b:c") := by
  refine ⟨by simp, by simp, rfl, rfl, ?_⟩
  decide

/-- C1 as amended: provided no visit_id in the ML list contains the
character ':' (the dedup key is the string "visit_id:type", so a colon in
a visit_id can merge distinct (visit_id, type) pairs), the output of
combine_anomalies contains no two issues sharing the same
(visit_id, type) pair — this half holds for all inputs — and whenever the
ML list and the rule list each contain an issue with the same
(visit_id, type) pair, an issue with that pair and source 'ml' is
retained in the output. -/
theorem c1_combine_dedup_ml_precedence (cfg : Config)
    (ml_anomalies rule_anomalies : List Issue)
    (hml : ∀ a ∈ ml_anomalies, ':' ∉ a.visit_id.data) :
    (combine_anomalies cfg ml_anomalies rule_anomalies).Pairwise
      (fun a b => ¬ (a.visit_id = b.visit_id ∧ a.type = b.type)) ∧
    ∀ a ∈ ml_anomalies, ∀ b ∈ rule_anomalies,
      a.visit_id = b.visit_id → a.type = b.type →
      ∃ c ∈ combine_anomalies cfg ml_anomalies rule_anomalies,
        c.visit_id = a.visit_id ∧ c.type = a.type ∧ c.source = "ml" := by
  have hperm : List.Perm (combine_anomalies cfg ml_anomalies rule_anomalies)
      ((dedupPass "ml" ml_anomalies []).1 ++
        (dedupPass "rules" rule_anomalies (dedupPass "ml" ml_anomalies []).2).1) :=
    sortIssues_perm cfg _
  constructor
  · have hnodup : (((dedupPass "ml" ml_anomalies []).1 ++
        (dedupPass "rules" rule_anomalies
          (dedupPass "ml" ml_anomalies []).2).1).map issueKey).Nodup := by
      rw [List.map_append]
      refine List.Nodup.append (dedupPass_fst_nodup _ _ _)
        (dedupPass_fst_nodup _ _ _) ?_
      intro k hk1 hk2
      obtain ⟨c1, hc1, hk1'⟩ := List.mem_map.mp hk1
      obtain ⟨c2, hc2, hk2'⟩ := List.mem_map.mp hk2
      have hfresh := dedupPass_fst_key_fresh "rules" rule_anomalies
        (dedupPass "ml" ml_anomalies []).2 c2 hc2
      obtain ⟨a1, ha1, hc1a⟩ := dedupPass_fst_mem "ml" ml_anomalies [] c1 hc1
      have hmem : issueKey c1 ∈ (dedupPass "ml" ml_anomalies []).2 := by
        rw [dedupPass_snd_mem]
        exact Or.inr (List.mem_map.mpr ⟨a1, ha1, by rw [hc1a]; rfl⟩)
      rw [hk1'] at hmem
      rw [hk2'] at hfresh
      exact hfresh hmem
    have hnodup' : ((combine_anomalies cfg ml_anomalies rule_anomalies).map
        issueKey).Nodup :=
      ((hperm.map issueKey).nodup_iff).mpr hnodup
    have hpw := (List.pairwise_map).mp hnodup'
    refine hpw.imp ?_
    intro a b hne hpair
    exact hne (by rw [issueKey, issueKey, hpair.1, hpair.2])
  · intro a ha b _ _ _
    obtain ⟨c, hc, hck, hcs⟩ :=
      dedupPass_retains "ml" ml_anomalies [] a ha (by simp)
    obtain ⟨a0, ha0, hca0⟩ := dedupPass_fst_mem "ml" ml_anomalies [] c hc
    have hcv : ':' ∉ c.visit_id.data := by
      rw [hca0]
      exact hml a0 ha0
    obtain ⟨hv, ht⟩ := issueKey_inj c a hcv (hml a ha) hck
    exact ⟨c, hperm.mem_iff.mpr (List.mem_append_left _ hc), hv, ht, hcs⟩

/-- A colon-free ML issue used to instantiate the amended C1 theorem. -/
def c1W1 : Issue :=
  { type := "unbilled-service", visit_id := "v7", leakage_amount := 250 }

/-- A rule issue with the same (visit_id, type) pair as c1W1. -/
def c1W2 : Issue :=
  { type := "unbilled-service", visit_id := "v7", source := "rules" }

/-- C1 witness: two singleton lists carrying the same colon-free
(visit_id, type) pair; the amended theorem applies and the ML copy is
retained. -/
theorem c1_witness :
    (∀ a ∈ [c1W1], ':' ∉ a.visit_id.data) ∧
    ((combine_anomalies defaultConfig [c1W1] [c1W2]).Pairwise
      (fun a b => ¬ (a.visit_id = b.visit_id ∧ a.type = b.type)) ∧
    ∀ a ∈ [c1W1], ∀ b ∈ [c1W2],
      a.visit_id = b.visit_id → a.type = b.type →
      ∃ c ∈ combine_anomalies defaultConfig [c1W1] [c1W2],
        c.visit_id = a.visit_id ∧ c.type = a.type ∧ c.source = "ml") :=
  ⟨by decide, c1_combine_dedup_ml_precedence defaultConfig _ _ (by decide)⟩

/-- The summary dictionary returned by AlertGenerator.create_alerts_batch. -/
structure BatchResult where
  success : Bool
  total : ℕ
  created : ℕ
  failed : ℕ
  alerts : List String
  deriving Repr, DecidableEq

/-- One iteration of the create_alerts_batch loop: on successful creation
append the new id, otherwise bump the failure count.  The per-issue
create_alert call (a database insert that may fail) is abstracted as a
function returning Option String. -/
def batchStep (create : Issue → Option String) (acc : List String × ℕ)
    (anomaly : Issue) : List String × ℕ :=
  match create anomaly with
  | some alert_id => (acc.1 ++ [alert_id], acc.2)
  | none => (acc.1, acc.2 + 1)

/-- AlertGenerator.create_alerts_batch: early return on the empty list,
otherwise loop create_alert over the issues, tolerating individual
failures, and report totals. -/
def create_alerts_batch (create : Issue → Option String)
    (anomalies : List Issue) : BatchResult :=
  if anomalies.isEmpty then
    { success := true, total := 0, created := 0, failed := 0, alerts := [] }
  else
    let r := anomalies.foldl (batchStep create) ([], 0)
    { success := true, total := anomalies.length, created := r.1.length,
      failed := r.2, alerts := r.1 }

theorem batch_foldl_spec (create : Issue → Option String) :
    ∀ (l : List Issue) (acc : List String × ℕ),
      (l.foldl (batchStep create) acc).1 = acc.1 ++ l.filterMap create ∧
      (l.foldl (batchStep create) acc).2 + (l.filterMap create).length =
        acc.2 + l.length := by
  intro l
  induction l with
  | nil => intro acc; simp
  | cons a rest ih =>
    intro acc
    rw [List.foldl_cons]
    cases hca : create a with
    | some alert_id =>
      obtain ⟨h1, h2⟩ := ih (acc.1 ++ [alert_id], acc.2)
      constructor
      · simp only [batchStep, hca]
        rw [h1]
        simp [List.filterMap_cons, hca]
      · simp only [batchStep, hca, List.filterMap_cons, List.length_cons]
        simp only [List.filterMap_cons, hca, List.length_cons] at h2
        omega
    | none =>
      obtain ⟨h1, h2⟩ := ih (acc.1, acc.2 + 1)
      constructor
      · simp only [batchStep, hca]
        rw [h1]
        simp [List.filterMap_cons, hca]
      · simp only [batchStep, hca, List.filterMap_cons, List.length_cons]
        omega

/-- C10: create_alerts_batch always reports success, even when every
individual creation fails; total equals the input length; total is
created plus failed; and the alerts field lists exactly the ids of the
successful creations in order.  No individual failure aborts the rest of
the batch. -/
theorem c10_batch_result_spec (create : Issue → Option String)
    (anomalies : List Issue) :
    (create_alerts_batch create anomalies).success = true ∧
    (create_alerts_batch create anomalies).total = anomalies.length ∧
    (create_alerts_batch create anomalies).created +
      (create_alerts_batch create anomalies).failed =
      (create_alerts_batch create anomalies).total ∧
    (create_alerts_batch create anomalies).alerts =
      anomalies.filterMap create ∧
    (create_alerts_batch create anomalies).created =
      (anomalies.filterMap create).length := by
  by_cases h : anomalies.isEmpty
  · have : anomalies = [] := List.isEmpty_iff.mp h
    subst this
    simp [create_alerts_batch]
  · obtain ⟨h1, h2⟩ := batch_foldl_spec create anomalies ([], 0)
    simp only [create_alerts_batch, if_neg h]
    refine ⟨by simp, by simp, ?_, ?_, ?_⟩
    · simp only [h1, List.nil_append, List.length_nil]
      simp only [List.nil_append] at h1
      omega
    · simp [h1]
    · simp [h1]

/-- Python str() applied to a possibly absent Mongo reference:
str(None) is the string "None". -/
def pyStr (o : Option String) : String := o.getD "None"

/-- The variance computation inside detect_price_mismatches:
abs(charged_rate - tariff_rate) / tariff_rate. -/
def priceVariance (charged_rate tariff_rate : ℚ) : ℚ :=
  |charged_rate - tariff_rate| / tariff_rate

/-- The per-item body of PatternAnalyzer.detect_price_mismatches: emits a
price-mismatch issue when the item code is priced in the tariff table,
the variance strictly exceeds the configured threshold, and the implied
leakage strictly exceeds min_leakage_amount.  (The numeric percent
rendered into the Python description f-string is carried in the
variance_percent field; the description is modelled by its constant
prefix.) -/
def priceIssuesOfItem (cfg : Config) (tariffs : String → Option ℚ)
    (b : BillingDoc) (item : BillingItem) : List Issue :=
  let item_code := item.itemCode.getD (item.serviceCode.getD "")
  let charged_rate := item.rate
  if item_code ≠ "" then
    match tariffs item_code with
    | some tr =>
      if tr > 0 then
        let variance := priceVariance charged_rate tr
        if variance > cfg.price_variance_percent / 100 then
          let leakage := max 0 (tr - charged_rate) * (item.quantity : ℚ)
          if leakage > cfg.min_leakage_amount then
            [{ type := "price-mismatch"
               patient_id := pyStr b.patient
               visit_id := pyStr b.visit
               bill_id := some b.mongo_id
               description := "Charged rate differs from tariff"
               service := item.itemType.getD "unknown"
               item_code := some item_code
               charged_rate := some charged_rate
               tariff_rate := some tr
               variance_percent := some (variance * 100)
               expected_revenue := tr * (item.quantity : ℚ)
               actual_revenue := charged_rate * (item.quantity : ℚ)
               leakage_amount := leakage
               severity := if variance < 3/10 then "medium" else "high" }]
          else []
        else []
      else []
    | none => []
  else []

/-- PatternAnalyzer.detect_price_mismatches over an already fetched list
of billings and a tariff table (item code to rate). -/
def detect_price_mismatches (cfg : Config) (tariffs : String → Option ℚ)
    (billings : List BillingDoc) : List Issue :=
  billings.flatMap (fun b => b.items.flatMap (priceIssuesOfItem cfg tariffs b))

/-- The tariff table of the C3 scenario: one item priced at 100. -/
def c3Tariffs : String → Option ℚ :=
  fun code => if code = "SVC" then some 100 else none

/-- The billing of the C3 scenario: one line charged 80, quantity 5. -/
def c3Billing : BillingDoc :=
  { mongo_id := "B3",
    items := [ { itemCode := some "SVC", rate := 80, quantity := 5 } ] }

/-- C3 counterexample: with tariff 100, charged 80, quantity 5, variance
threshold 10% and minimum leakage 100, the variance is 20% and passes its
strict check, the implied leakage is exactly 100, but the leakage filter
is also strict (leakage > 100 fails), so NO price-mismatch issue is
produced, contrary to the claim. -/
theorem c3_counterexample :
    priceVariance 80 100 = 1/5 ∧
    (1/5 : ℚ) > defaultConfig.price_variance_percent / 100 ∧
    max 0 ((100 : ℚ) - 80) * 5 = 100 ∧
    detect_price_mismatches defaultConfig c3Tariffs [c3Billing] = [] := by
  refine ⟨by norm_num [priceVariance], by norm_num [defaultConfig], by norm_num, ?_⟩
  norm_num [detect_price_mismatches, priceIssuesOfItem, c3Tariffs, c3Billing,
    priceVariance, defaultConfig, pyStr]

/-- C3 as amended: in the claim's scenario the 20% variance exceeds the
10% threshold, but the minimum-leakage comparison is strict, so the
leakage of exactly 100 equals the default threshold and no issue is
produced; lowering the minimum-leakage threshold below 100 (to 99) makes
the detector emit exactly one price-mismatch issue with leakage_amount
100 and severity 'medium' (variance below 30%). -/
theorem c3_price_mismatch_boundary :
    detect_price_mismatches defaultConfig c3Tariffs [c3Billing] = [] ∧
    priceVariance 80 100 > defaultConfig.price_variance_percent / 100 ∧
    ¬ max 0 ((100 : ℚ) - 80) * 5 > defaultConfig.min_leakage_amount ∧
    (detect_price_mismatches
      { defaultConfig with min_leakage_amount := 99 } c3Tariffs [c3Billing]).length = 1 ∧
    ∀ i ∈ detect_price_mismatches
      { defaultConfig with min_leakage_amount := 99 } c3Tariffs [c3Billing],
      i.type = "price-mismatch" ∧ i.leakage_amount = 100 ∧
      i.severity = "medium" := by
  refine ⟨?_, by norm_num [priceVariance, defaultConfig], by norm_num [defaultConfig], ?_, ?_⟩
  · norm_num [detect_price_mismatches, priceIssuesOfItem, c3Tariffs, c3Billing,
      priceVariance, defaultConfig, pyStr]
  · norm_num [detect_price_mismatches, priceIssuesOfItem, c3Tariffs, c3Billing,
      priceVariance, defaultConfig, pyStr]
    decide
  · norm_num [detect_price_mismatches, priceIssuesOfItem, c3Tariffs, c3Billing,
      priceVariance, defaultConfig, pyStr]

/-- A billing item carrying a given (itemType, itemReference) pair and
amount. -/
def sameRefItem (ty ref : String) (amt : ℚ) : BillingItem :=
  { itemType := some ty, itemReference := some ref, amount := amt }

/-- The duplicate-billing issue built inside
PatternAnalyzer.detect_duplicate_billings for the repeated item. -/
def dupIssue (b : BillingDoc) (item_type ref : String) (item : BillingItem) :
    Issue :=
  { type := "duplicate-billing"
    patient_id := pyStr b.patient
    visit_id := pyStr b.visit
    bill_id := some b.mongo_id
    description := "Duplicate " ++ item_type ++ " item in billing"
    service := item_type
    item_reference := some ref
    duplicate_amount := some item.amount
    severity := "high" }

/-- The item loop of detect_duplicate_billings: items with an empty
reference or type are skipped; the first occurrence of each
"itemType:itemReference" key is recorded; every later occurrence emits a
duplicate-billing issue. -/
def dupScan (b : BillingDoc) : List BillingItem → List String → List Issue
  | [], _ => []
  | item :: rest, seen =>
    let ref := item.itemReference.getD ""
    let item_type := item.itemType.getD ""
    if ref ≠ "" ∧ item_type ≠ "" then
      if (item_type ++ ":" ++ ref) ∈ seen then
        dupIssue b item_type ref item :: dupScan b rest seen
      else
        dupScan b rest ((item_type ++ ":" ++ ref) :: seen)
    else
      dupScan b rest seen

/-- PatternAnalyzer.detect_duplicate_billings over an already fetched
list of billings. -/
def detect_duplicate_billings (billings : List BillingDoc) : List Issue :=
  billings.flatMap (fun b => dupScan b b.items [])

theorem dupScan_all_seen (b : BillingDoc) (ty ref : String)
    (hty : ty ≠ "") (href : ref ≠ "") (amts : List ℚ) (seen : List String)
    (hseen : (ty ++ ":" ++ ref) ∈ seen) :
    dupScan b (amts.map (sameRefItem ty ref)) seen =
      amts.map (fun amt => dupIssue b ty ref (sameRefItem ty ref amt)) := by
  induction amts with
  | nil => rfl
  | cons a rest ih =>
    simp only [List.map_cons, dupScan, sameRefItem, Option.getD_some]
    rw [if_pos ⟨href, hty⟩, if_pos hseen, ih]
    rfl

/-- C6: for a billing whose items are n occurrences of the same non-empty
(itemType, itemReference) pair, detect_duplicate_billings emits exactly
n - 1 duplicate-billing issues, each with severity 'high'; in particular
two identical items yield exactly one issue, built from the second
occurrence. -/
theorem c6_duplicate_billing_count (b : BillingDoc) (ty ref : String)
    (amts : List ℚ) (hty : ty ≠ "") (href : ref ≠ "") :
    (detect_duplicate_billings
        [{ b with items := amts.map (sameRefItem ty ref) }]).length =
      amts.length - 1 ∧
    (∀ i ∈ detect_duplicate_billings
        [{ b with items := amts.map (sameRefItem ty ref) }],
      i.type = "duplicate-billing" ∧ i.severity = "high") ∧
    ∀ a₁ a₂ : ℚ, amts = [a₁, a₂] →
      detect_duplicate_billings
          [{ b with items := amts.map (sameRefItem ty ref) }] =
        [dupIssue { b with items := amts.map (sameRefItem ty ref) }
          ty ref (sameRefItem ty ref a₂)] := by
  cases amts with
  | nil =>
    refine ⟨by simp [detect_duplicate_billings, dupScan], ?_, ?_⟩
    · intro i hi
      simp [detect_duplicate_billings, dupScan] at hi
    · intro a₁ a₂ h
      simp at h
  | cons a rest =>
    have hdet : detect_duplicate_billings
        [{ b with items := (a :: rest).map (sameRefItem ty ref) }] =
        dupScan { b with items := (a :: rest).map (sameRefItem ty ref) }
          ((a :: rest).map (sameRefItem ty ref)) [] := by
      simp [detect_duplicate_billings]
    have hscan : dupScan { b with items := (a :: rest).map (sameRefItem ty ref) }
        ((a :: rest).map (sameRefItem ty ref)) [] =
        rest.map (fun amt =>
          dupIssue { b with items := (a :: rest).map (sameRefItem ty ref) }
            ty ref (sameRefItem ty ref amt)) := by
      simp only [List.map_cons, dupScan, sameRefItem, Option.getD_some]
      rw [if_pos ⟨href, hty⟩, if_neg (by simp)]
      exact dupScan_all_seen _ ty ref hty href rest _ (List.mem_cons_self _ _)
    refine ⟨?_, ?_, ?_⟩
    · rw [hdet, hscan]
      simp
    · intro i hi
      rw [hdet, hscan] at hi
      obtain ⟨amt, _, hia⟩ := List.mem_map.mp hi
      rw [← hia]
      exact ⟨rfl, rfl⟩
    · intro a₁ a₂ h
      simp only [List.cons.injEq] at h
      obtain ⟨rfl, rfl⟩ := h
      rw [hdet, hscan]
      rfl

/-- C6 witness: a concrete billing with two identical lab items produces
exactly one duplicate issue. -/
theorem c6_witness :
    ("lab" : String) ≠ "" ∧ ("A" : String) ≠ "" ∧
    (detect_duplicate_billings
        [{ ({ mongo_id := "B6" } : BillingDoc) with
            items := ([1, 2] : List ℚ).map (sameRefItem "lab" "A") }]).length =
      ([1, 2] : List ℚ).length - 1 := by
  refine ⟨by decide, by decide, ?_⟩
  exact (c6_duplicate_billing_count { mongo_id := "B6" } "lab" "A" [1, 2]
    (by decide) (by decide)).1

/-- The fitted isolation-forest model, abstracted to its two observable
operations: per-row predictions (-1 anomaly, +1 normal) and per-row
anomaly scores. -/
structure ModelFns where
  predict : List (List ℚ) → List ℤ
  score : List (List ℚ) → List ℚ

/-- The normalization parameters persisted with the model
(per-column mean and floored std, as lists). -/
structure NormParams where
  mean : List ℚ
  std : List ℚ
  deriving Repr, DecidableEq

/-- numpy ndarray.size of a row-major matrix: the total element count. -/
def matrixSize (m : List (List ℚ)) : ℕ := (m.map List.length).sum

/-- The mutable state of an AnomalyDetector instance: trained flag,
loaded model, stored normalization parameters, plus the persisted
artifact written by save_model.  fitCount counts model.fit invocations
(for stating that no fit is performed). -/
structure DetectorState where
  is_trained : Bool
  model : Option ModelFns
  normalization_params : Option NormParams
  artifact : Option (ModelFns × Option NormParams)
  fitCount : ℕ

/-- AnomalyDetector.detect: early return of two empty arrays when the
model is untrained or missing (only an error is logged — no error value
is returned), early return of two empty arrays on an empty feature
matrix, otherwise the model's predictions and scores. -/
def detect (st : DetectorState) (features : List (List ℚ)) :
    List ℤ × List ℚ :=
  if st.is_trained = false ∨ st.model.isNone then ([], [])
  else if matrixSize features = 0 then ([], [])
  else
    match st.model with
    | some m => (m.predict features, m.score features)
    | none => ([], [])

/-- A detector that has never been trained (no artifact on disk). -/
def untrainedDetector : DetectorState :=
  { is_trained := false, model := none, normalization_params := none,
    artifact := none, fitCount := 0 }

/-- A concrete fitted model: flags every row normal with score 1/10. -/
def constModel : ModelFns :=
  { predict := fun m => m.map (fun _ => 1),
    score := fun m => m.map (fun _ => 1/10) }

/-- A detector in the trained state holding constModel. -/
def trainedDetector : DetectorState :=
  { is_trained := true, model := some constModel,
    normalization_params := none,
    artifact := some (constModel, none), fitCount := 1 }

/-- C4 counterexample: detect on an untrained detector does not fail
with a NotTrained error value — it returns the pair of empty arrays,
which is identical to (not distinct from) the result of detect on a
trained detector with an empty feature matrix. -/
theorem c4_counterexample :
    detect untrainedDetector [[1, 2]] = (([] : List ℤ), ([] : List ℚ)) ∧
    detect trainedDetector [] = (([] : List ℤ), ([] : List ℚ)) ∧
    detect untrainedDetector [[1, 2]] = detect trainedDetector [] := by
  exact ⟨rfl, rfl, rfl⟩

/-- C4 as amended: detect returns a pair of empty result arrays both
when the detector is untrained (an error is only logged; no error value
is returned to the caller) and when the feature matrix is empty; the
untrained result is therefore identical to, not distinct from, the
empty-input result. -/
theorem c4_detect_untrained_empty (st : DetectorState)
    (features : List (List ℚ)) :
    (st.is_trained = false → detect st features = ([], [])) ∧
    (matrixSize features = 0 → detect st features = ([], [])) := by
  constructor
  · intro h
    simp [detect, h]
  · intro h
    by_cases htr : st.is_trained = false ∨ st.model.isNone
    · rw [detect, if_pos htr]
    · rw [detect, if_neg htr, if_pos h]

/-- C4 witness: the amended theorem applied at the untrained detector on
a nonempty matrix, and at the trained detector on the empty matrix. -/
theorem c4_witness :
    (untrainedDetector.is_trained = false ∧
      detect untrainedDetector [[1, 2]] = ([], [])) ∧
    (matrixSize ([] : List (List ℚ)) = 0 ∧
      detect trainedDetector [] = ([], [])) :=
  ⟨⟨rfl, (c4_detect_untrained_empty untrainedDetector [[1, 2]]).1 rfl⟩,
    ⟨rfl, (c4_detect_untrained_empty trainedDetector []).2 rfl⟩⟩

/-- The values of column j of a row-major matrix (rows are rectangular in
the numpy source; out-of-range reads default to 0). -/
def colValues (m : List (List ℚ)) (j : ℕ) : List ℚ :=
  m.map (fun row => row.getD j 0)

/-- np.mean over axis 0 at column j. -/
def colMean (m : List (List ℚ)) (j : ℕ) : ℚ :=
  (colValues m j).sum / (m.length : ℚ)

/-- The mean squared deviation of column j (the square of np.std). -/
def colVariance (m : List (List ℚ)) (j : ℕ) : ℚ :=
  ((colValues m j).map (fun x => (x - colMean m j) ^ 2)).sum / (m.length : ℚ)

/-- np.std over axis 0: the square root of the mean squared deviation.
The floating-point square root is abstracted as the parameter sqrtFn;
every theorem below holds for an arbitrary sqrtFn. -/
def colStd (sqrtFn : ℚ → ℚ) (m : List (List ℚ)) (j : ℕ) : ℚ :=
  sqrtFn (colVariance m j)

/-- The std vector after the in-place floor std[std == 0] = 1 of
DataProcessor.normalize_features. -/
def flooredStd (sqrtFn : ℚ → ℚ) (m : List (List ℚ)) (j : ℕ) : ℚ :=
  if colStd sqrtFn m j = 0 then 1 else colStd sqrtFn m j

/-- One row of the broadcast (features - mean) / std, starting at column
index j. -/
def normRow (sqrtFn : ℚ → ℚ) (m : List (List ℚ)) :
    ℕ → List ℚ → List ℚ
  | _, [] => []
  | j, x :: xs =>
    (x - colMean m j) / flooredStd sqrtFn m j :: normRow sqrtFn m (j + 1) xs

/-- DataProcessor.normalize_features: unchanged input (and no params) on
a size-0 matrix, otherwise per-column z-scores with the floored std,
returning the parameters used. -/
def normalize_features (sqrtFn : ℚ → ℚ) (m : List (List ℚ)) :
    List (List ℚ) × Option NormParams :=
  if matrixSize m = 0 then (m, none)
  else
    (m.map (normRow sqrtFn m 0),
      some { mean := (List.range (m.headD []).length).map (colMean m),
             std := (List.range (m.headD []).length).map (flooredStd sqrtFn m) })

theorem normRow_get? (sqrtFn : ℚ → ℚ) (m : List (List ℚ)) :
    ∀ (row : List ℚ) (j0 k : ℕ),
      (normRow sqrtFn m j0 row).get? k = (row.get? k).map
        (fun x => (x - colMean m (j0 + k)) / flooredStd sqrtFn m (j0 + k)) := by
  intro row
  induction row with
  | nil => intro j0 k; simp [normRow]
  | cons x xs ih =>
    intro j0 k
    cases k with
    | zero => simp [normRow]
    | succ k =>
      simp only [normRow, List.get?_cons_succ, ih (j0 + 1) k]
      have : j0 + 1 + k = j0 + (k + 1) := by omega
      rw [this]

theorem colMean_const (m : List (List ℚ)) (j : ℕ) (v : ℚ) (hne : m ≠ [])
    (hconst : ∀ row ∈ m, row.get? j = some v) :
    colMean m j = v := by
  have hvals : colValues m j = m.map (fun _ => v) := by
    refine List.map_congr_left ?_
    intro row hrow
    have h := hconst row hrow
    rw [List.get?_eq_getElem?] at h
    simp [List.getD, h]
  have hsum0 : ∀ (l : List (List ℚ)),
      (l.map (fun _ => v)).sum = (l.length : ℚ) * v := by
    intro l
    induction l with
    | nil => simp
    | cons r rest ih =>
      simp only [List.map_cons, List.sum_cons, List.length_cons, ih]
      push_cast
      ring
  have hsum : (colValues m j).sum = (m.length : ℚ) * v := by
    rw [hvals, hsum0]
  have hlen : (m.length : ℚ) ≠ 0 := by
    have h0 : 0 < m.length := List.length_pos.mpr hne
    exact Nat.cast_ne_zero.mpr (by omega)
  rw [colMean, hsum, mul_comm, mul_div_assoc, div_self hlen, mul_one]

/-- C7: for every matrix and every abstraction of the floating-point
square root, (1) a constant column is mapped to 0 in every output row,
(2) the divisor actually used (std after the zero floor) is never zero —
the z-score division can never produce a NaN — and (3) the empty matrix
is returned unchanged. -/
theorem c7_normalize_constant_column (sqrtFn : ℚ → ℚ) (m : List (List ℚ))
    (j : ℕ) (v : ℚ) :
    ((∀ row ∈ m, row.get? j = some v) →
      ∀ row' ∈ (normalize_features sqrtFn m).1, row'.get? j = some 0) ∧
    flooredStd sqrtFn m j ≠ 0 ∧
    (matrixSize m = 0 → (normalize_features sqrtFn m).1 = m) := by
  refine ⟨?_, ?_, ?_⟩
  · intro hconst row' hrow'
    by_cases hm : m = []
    · subst hm
      simp [normalize_features, matrixSize] at hrow'
    · have hne : m ≠ [] := hm
      obtain ⟨r0, hr0⟩ := List.exists_mem_of_ne_nil m hne
      have hr0v := hconst r0 hr0
      have hr0len : j < r0.length := by
        by_contra hge
        rw [List.get?_eq_none.mpr (by omega)] at hr0v
        exact Option.noConfusion hr0v
      have hsize : matrixSize m ≠ 0 := by
        intro hzero
        have hmem : r0.length ∈ m.map List.length := List.mem_map_of_mem _ hr0
        have hle : r0.length ≤ (m.map List.length).sum :=
          List.single_le_sum (fun x _ => Nat.zero_le x) _ hmem
        rw [matrixSize] at hzero
        omega
      rw [normalize_features, if_neg hsize] at hrow'
      obtain ⟨row, hrow, hrow'eq⟩ := List.mem_map.mp hrow'
      rw [← hrow'eq, normRow_get? sqrtFn m row 0 j]
      rw [hconst row hrow]
      simp [colMean_const m j v hne hconst]
  · rw [flooredStd]
    split
    · exact one_ne_zero
    · assumption
  · intro h
    simp [normalize_features, h]

/-- C7 witness: a 2 x 1 matrix with the constant column 5 normalizes to
0 in both rows (with the identity standing in for sqrt). -/
theorem c7_witness :
    (∀ row ∈ [[(5 : ℚ)], [5]], row.get? 0 = some 5) ∧
    ∀ row' ∈ (normalize_features id [[(5 : ℚ)], [5]]).1,
      row'.get? 0 = some 0 :=
  ⟨by decide, (c7_normalize_constant_column id [[(5 : ℚ)], [5]] 0 5).1 (by decide)⟩

/-- The training-metrics dictionary returned by AnomalyDetector.train.
(The score statistics — mean/std/min/max over the training scores — are
training diagnostics on floats; they are not carried because no control
flow depends on them.) -/
structure DetectorTrainResult where
  success : Bool
  error : Option String
  n_samples : ℕ
  n_features : ℕ
  n_anomalies : ℕ
  anomaly_rate : ℚ

/-- AnomalyDetector.train: fails on an empty matrix; otherwise fits a
fresh model (abstracted as the fit function), stores the normalization
params when provided (Python truthiness: an empty/absent dict leaves the
old value), marks the detector trained, computes training diagnostics,
and persists {model, normalization_params} via save_model.  A sample
count below the configured minimum only logs a warning. -/
def detector_train (fit : List (List ℚ) → ModelFns) (st : DetectorState)
    (features : List (List ℚ)) (params : Option NormParams) :
    DetectorState × DetectorTrainResult :=
  if matrixSize features = 0 then
    (st, { success := false, error := some "Empty training data",
           n_samples := 0, n_features := 0, n_anomalies := 0,
           anomaly_rate := 0 })
  else
    let m := fit features
    let new_params := match params with
      | some p => some p
      | none => st.normalization_params
    let st' : DetectorState :=
      { is_trained := true
        model := some m
        normalization_params := new_params
        artifact := some (m, new_params)
        fitCount := st.fitCount + 1 }
    let predictions := m.predict features
    (st', { success := true, error := none
            n_samples := features.length
            n_features := (features.headD []).length
            n_anomalies := predictions.count (-1)
            anomaly_rate := (predictions.count (-1) : ℚ) / (predictions.length : ℚ) })

/-- The result dictionary of ModelTrainer.train.  retrained is an Option
because the failure dictionaries carry no such key. -/
structure TrainResult where
  success : Bool
  message : Option String
  retrained : Option Bool
  error : Option String
  n_samples : ℕ := 0
  n_features : ℕ := 0

/-- The mutable state of a ModelTrainer instance: its anomaly detector
and the training history (per run: sample and feature counts). -/
structure TrainerState where
  detector : DetectorState
  history : List (ℕ × ℕ)

/-- The environment of one ModelTrainer.train invocation: the abstracted
float square root, the model-fitting function, the feature matrix
returned by get_training_data, and DATA_CONFIG min_samples_for_training. -/
structure TrainEnv where
  sqrtFn : ℚ → ℚ
  fit : List (List ℚ) → ModelFns
  training_features : List (List ℚ)
  min_samples : ℕ

/-- ModelTrainer._validate_data: the validity verdict — it hard-fails
exactly when the sample count is below the configured minimum; NaN /
infinity / zero-variance findings are warnings only. -/
def validate_data (min_samples : ℕ) (features : List (List ℚ)) : Bool :=
  decide (features.length ≥ min_samples)

/-- ModelTrainer.train: early return when the detector is already
trained and force_retrain is not set; otherwise fetch, validate,
normalize, fit, and record history.  (_validate_model re-runs detection
on the training set itself and only reports diagnostics; it changes no
state and its report is not carried.) -/
def trainer_train (env : TrainEnv) (force_retrain : Bool)
    (ts : TrainerState) : TrainerState × TrainResult :=
  if ts.detector.is_trained = true ∧ force_retrain = false then
    (ts, { success := true, message := some "Model already trained",
           retrained := some false, error := none })
  else
    let features := env.training_features
    if matrixSize features = 0 then
      (ts, { success := false,
             message := some "Please ensure there is billing data in the database",
             retrained := none, error := some "No training data available" })
    else if validate_data env.min_samples features = false then
      (ts, { success := false, message := none, retrained := none,
             error := some "Insufficient training data" })
    else
      let np := normalize_features env.sqrtFn features
      let r := detector_train env.fit ts.detector np.1 np.2
      if r.2.success = false then
        ({ ts with detector := r.1 },
         { success := false, message := none, retrained := none,
           error := some "Training failed" })
      else
        ({ detector := r.1,
           history := ts.history ++
             [(features.length, (features.headD []).length)] },
         { success := true, message := some "Model trained successfully",
           retrained := some true, error := none,
           n_samples := features.length,
           n_features := (features.headD []).length })

/-- C8: when the detector is already trained, train with
force_retrain = False returns the successful already-trained result with
retrained = False, performs no model fit (the fit counter is unchanged),
leaves the trainer state — including the model and the persisted
artifact — unchanged, and a second identical call returns the very same
state and result. -/
theorem c8_train_idempotent (env : TrainEnv) (ts : TrainerState)
    (h : ts.detector.is_trained = true) :
    (trainer_train env false ts).1 = ts ∧
    (trainer_train env false ts).2.success = true ∧
    (trainer_train env false ts).2.retrained = some false ∧
    (trainer_train env false ts).1.detector.fitCount = ts.detector.fitCount ∧
    (trainer_train env false ts).1.detector.artifact = ts.detector.artifact ∧
    trainer_train env false (trainer_train env false ts).1 =
      trainer_train env false ts := by
  have hfst : trainer_train env false ts =
      (ts, { success := true, message := some "Model already trained",
             retrained := some false, error := none }) := by
    rw [trainer_train, if_pos ⟨h, rfl⟩]
  refine ⟨by rw [hfst], by rw [hfst], by rw [hfst], by rw [hfst],
    by rw [hfst], ?_⟩
  rw [hfst]
  exact hfst

/-- A trivial training environment (identity sqrt, constant model, no
data). -/
def c8Env : TrainEnv :=
  { sqrtFn := id, fit := fun _ => constModel,
    training_features := [], min_samples := 100 }

/-- A trainer whose detector is already trained. -/
def c8State : TrainerState := { detector := trainedDetector, history := [] }

/-- C8 witness: the idempotence theorem applied at a concrete trained
trainer state. -/
theorem c8_witness :
    c8State.detector.is_trained = true ∧
    (trainer_train c8Env false c8State).1 = c8State ∧
    (trainer_train c8Env false c8State).2.retrained = some false ∧
    trainer_train c8Env false (trainer_train c8Env false c8State).1 =
      trainer_train c8Env false c8State := by
  have h := c8_train_idempotent c8Env c8State rfl
  exact ⟨rfl, h.1, h.2.2.1, h.2.2.2.2.2⟩

/-- A persisted alert document (the ai_anomalies collection schema built
by AlertGenerator.create_alert; the metadata sub-document is inlined). -/
structure Alert where
  anomalyType : String
  detectionDate : ℕ
  patient : Option String
  visit : Option String
  description : String
  service : String
  expectedRevenue : ℚ
  actualRevenue : ℚ
  leakageAmount : ℚ
  status : String
  reviewedBy : Option String
  reviewedAt : Option ℕ
  resolutionNotes : Option String
  anomalyScore : ℚ
  priority : ℕ
  source : String
  severity : String
  bill_id : Option String
  createdAt : ℕ
  deriving Repr, DecidableEq

/-- AlertGenerator._to_object_id: falsy input (absent or empty string)
maps to None; otherwise the id itself (the ObjectId parse of a
well-formed id string). -/
def to_object_id (id_str : Option String) : Option String :=
  match id_str with
  | none => none
  | some s => if s = "" then none else some s

/-- AlertGenerator.create_alert without the database insert: the alert
document built from an issue at the given time.  Its status is
ALERT_STATUS['DETECTED'] — the only creation state. -/
def create_alert (cfg : Config) (now : ℕ) (a : Issue) : Alert :=
  { anomalyType := a.type
    detectionDate := now
    patient := to_object_id (some a.patient_id)
    visit := to_object_id (some a.visit_id)
    description := a.description
    service := a.service
    expectedRevenue := a.expected_revenue
    actualRevenue := a.actual_revenue
    leakageAmount := a.leakage_amount
    status := "detected"
    reviewedBy := none
    reviewedAt := none
    resolutionNotes := none
    anomalyScore := a.anomaly_score
    priority := calculate_priority cfg a
    source := a.source
    severity := a.severity
    bill_id := a.bill_id
    createdAt := now }

/-- The update document applied by AlertGenerator.update_alert_status:
status and reviewedAt are set unconditionally; reviewedBy and
resolutionNotes only when the arguments are truthy (present and
non-empty). -/
def applyUpdate (status : String) (reviewed_by resolution_notes : Option String)
    (now : ℕ) (a : Alert) : Alert :=
  let a1 := { a with status := status, reviewedAt := some now }
  let a2 := match reviewed_by with
    | some s => if s = "" then a1 else { a1 with reviewedBy := to_object_id (some s) }
    | none => a1
  match resolution_notes with
  | some s => if s = "" then a2 else { a2 with resolutionNotes := some s }
  | none => a2

/-- Apply a function to the alert at a given position (Mongo update_one
matches at most one document; alerts are addressed by their position in
the store). -/
def updateAlertIn : ℕ → (Alert → Alert) → List Alert → List Alert
  | _, _, [] => []
  | 0, f, a :: rest => f a :: rest
  | n + 1, f, a :: rest => a :: updateAlertIn n f rest

/-- The operations AlertGenerator exposes that write the alert store. -/
inductive AlertOp where
  | createOp (now : ℕ) (issue : Issue)
  | updateOp (idx : ℕ) (status : String)
      (reviewed_by resolution_notes : Option String) (now : ℕ)

/-- One step of the alert store: create_alert inserts a new document;
update_alert_status rewrites the addressed document. -/
def applyOp (cfg : Config) (store : List Alert) : AlertOp → List Alert
  | .createOp now issue => store ++ [create_alert cfg now issue]
  | .updateOp idx status rb rn now =>
    updateAlertIn idx (applyUpdate status rb rn now) store

/-- The alert store reached by a sequence of AlertGenerator operations
starting from the empty collection. -/
def runOps (cfg : Config) (ops : List AlertOp) : List Alert :=
  ops.foldl (fun store op => applyOp cfg store op) []

/-- The issue created in the C5 scenario. -/
def c5Issue : Issue := { type := "unusual-pattern", visit_id := "v5" }

/-- C5 counterexample: update_alert_status performs no transition
validation — a stored alert can be moved from 'detected' directly to the
arbitrary status 'archived', which lies outside the claimed four-value
enumeration, so the claimed lifecycle invariant is false. -/
theorem c5_counterexample :
    (runOps defaultConfig
        [AlertOp.createOp 0 c5Issue,
         AlertOp.updateOp 0 "archived" none none 1]).map Alert.status =
      ["archived"] ∧
    "archived" ∉ ["detected", "under-review", "resolved", "false-positive"] := by
  exact ⟨rfl, by decide⟩

theorem updateAlertIn_mem (f : Alert → Alert) :
    ∀ (n : ℕ) (store : List Alert) (a : Alert),
      a ∈ updateAlertIn n f store → a ∈ store ∨ ∃ b ∈ store, a = f b := by
  intro n
  induction n with
  | zero =>
    intro store a ha
    cases store with
    | nil => simp [updateAlertIn] at ha
    | cons b rest =>
      rcases List.mem_cons.mp ha with ha | ha
      · exact Or.inr ⟨b, List.mem_cons_self _ _, ha⟩
      · exact Or.inl (List.mem_cons_of_mem _ ha)
  | succ n ih =>
    intro store a ha
    cases store with
    | nil => simp [updateAlertIn] at ha
    | cons b rest =>
      rcases List.mem_cons.mp ha with ha | ha
      · exact Or.inl (ha ▸ List.mem_cons_self _ _)
      · rcases ih rest a ha with h | ⟨c, hc, hac⟩
        · exact Or.inl (List.mem_cons_of_mem _ h)
        · exact Or.inr ⟨c, List.mem_cons_of_mem _ hc, hac⟩

theorem applyUpdate_status (status : String)
    (rb rn : Option String) (now : ℕ) (a : Alert) :
    (applyUpdate status rb rn now a).status = status := by
  rw [applyUpdate.eq_def]
  cases rb with
  | none =>
    cases rn with
    | none => rfl
    | some s =>
      by_cases hs : s = "" <;> simp [hs]
  | some s =>
    cases rn with
    | none =>
      by_cases hs : s = "" <;> simp [hs]
    | some t =>
      by_cases hs : s = "" <;> by_cases ht : t = "" <;> simp [hs, ht]

theorem runOps_status_aux (cfg : Config) :
    ∀ (ops : List AlertOp) (store : List Alert),
      ∀ a ∈ ops.foldl (fun st op => applyOp cfg st op) store,
        (∃ b ∈ store, a.status = b.status) ∨ a.status = "detected" ∨
        ∃ op ∈ ops, ∃ idx rb rn now,
          op = AlertOp.updateOp idx a.status rb rn now := by
  intro ops
  induction ops with
  | nil =>
    intro store a ha
    exact Or.inl ⟨a, ha, rfl⟩
  | cons op rest ih =>
    intro store a ha
    rw [List.foldl_cons] at ha
    rcases ih (applyOp cfg store op) a ha with ⟨b, hb, hab⟩ | h | ⟨op', hop', h⟩
    · cases op with
      | createOp now issue =>
        rcases List.mem_append.mp hb with hb | hb
        · exact Or.inl ⟨b, hb, hab⟩
        · have hbc : b = create_alert cfg now issue := List.mem_singleton.mp hb
          exact Or.inr (Or.inl (by rw [hab, hbc]; rfl))
      | updateOp idx st rb rn now =>
        rcases updateAlertIn_mem _ idx store b hb with hb' | ⟨c, _, hbc⟩
        · exact Or.inl ⟨b, hb', hab⟩
        · have hst : b.status = st := by
            rw [hbc]
            exact applyUpdate_status st rb rn now c
          refine Or.inr (Or.inr ⟨AlertOp.updateOp idx st rb rn now,
            List.mem_cons_self _ _, idx, rb, rn, now, ?_⟩)
          rw [hab, hst]
    · exact Or.inr (Or.inl h)
    · exact Or.inr (Or.inr ⟨op', List.mem_cons_of_mem _ hop', h⟩)

/-- C5 as amended: every alert is created in status 'detected' (the only
creation state), create_alert only appends and never touches existing
alerts, and the status of a stored alert changes only through
update_alert_status — which sets it to the caller-supplied value without
any transition validation, so every status in a reachable store is
either 'detected' or a value passed verbatim to some update operation
(statuses outside the four-value enumeration, and transitions outside
the lifecycle edges, are therefore reachable). -/
theorem c5_alert_status_invariant (cfg : Config) (ops : List AlertOp) :
    (∀ (store : List Alert) (now : ℕ) (issue : Issue),
      applyOp cfg store (AlertOp.createOp now issue) =
        store ++ [create_alert cfg now issue] ∧
      (create_alert cfg now issue).status = "detected") ∧
    ∀ a ∈ runOps cfg ops, a.status = "detected" ∨
      ∃ op ∈ ops, ∃ idx rb rn now,
        op = AlertOp.updateOp idx a.status rb rn now := by
  constructor
  · intro store now issue
    exact ⟨rfl, rfl⟩
  · intro a ha
    rcases runOps_status_aux cfg ops [] a ha with ⟨b, hb, _⟩ | h | h
    · simp at hb
    · exact Or.inl h
    · exact Or.inr h

/-- C5 witness: the invariant theorem applied to a concrete operation
sequence (a creation followed by a legitimate review transition). -/
theorem c5_witness :
    (∀ (store : List Alert) (now : ℕ) (issue : Issue),
      applyOp defaultConfig store (AlertOp.createOp now issue) =
        store ++ [create_alert defaultConfig now issue] ∧
      (create_alert defaultConfig now issue).status = "detected") ∧
    ∀ a ∈ runOps defaultConfig
        [AlertOp.createOp 0 c5Issue,
         AlertOp.updateOp 0 "under-review" (some "reviewer") none 1],
      a.status = "detected" ∨
      ∃ op ∈ [AlertOp.createOp 0 c5Issue,
          AlertOp.updateOp 0 "under-review" (some "reviewer") none 1],
        ∃ idx rb rn now, op = AlertOp.updateOp idx a.status rb rn now :=
  c5_alert_status_invariant defaultConfig
    [AlertOp.createOp 0 c5Issue,
     AlertOp.updateOp 0 "under-review" (some "reviewer") none 1]

end RevenueLeakage
